import Mathlib

/-!
Verification of the news-skill matching/scoring core (`__init__.py`):
the phrase normalizer `clean_phrase`, the language detector `match_lang`,
and the scorer/matcher `search_news`, together with the static catalog
`lang2news` and the per-language defaults `langdefaults`.

Host-provided capabilities (vocabulary matching, fuzzy alias matching,
settings storage, the active system language, and the network-backed URI
resolvers) are modelled as fields of a `Host` record: the skill's logic is
embedded faithfully, parameterized over those capabilities.

The in-place mutation of the shared class attribute `lang2news` performed
by `search_news` is made explicit: `search_news` takes the catalog as an
argument and returns both the result list and the catalog as it stands
after the call.
-/

/-- Media types from the host playback framework (the values this skill uses). -/
inductive MediaType
  | GENERIC
  | VIDEO
  | TV
  | NEWS
  | RADIO
deriving DecidableEq, Repr, Inhabited

/-- Playback types from the host playback framework. -/
inductive PlaybackType
  | AUDIO
  | VIDEO
deriving DecidableEq, Repr, Inhabited

/-- Value of a descriptor's `uri` field: a literal string, Python `None`
(what a resolver may return), or a reference to one of the four no-argument
resolver functions (`tsf`, `gpb`, `abc`, `npr`). -/
inductive UriVal
  | literal (s : String)
  | pynone
  | resolver (rname : String)
deriving DecidableEq, Repr, Inhabited

/-- Python truthiness of a `uri` field value: an empty string and `None`
are falsy; a callable (resolver reference) is truthy. -/
def uriTruthy : UriVal → Bool
  | UriVal.literal s => s != ""
  | UriVal.pynone => false
  | UriVal.resolver _ => true

/-- Outcome of invoking a resolver: it either raises an exception or
returns a value (a string, or Python `None` modelled as `none`). -/
inductive ResolveOutcome
  | raises
  | returns (v : Option String)
deriving DecidableEq, Repr

/-- Convert a resolver's returned Python value into a `uri` field value. -/
def uriOfPy : Option String → UriVal
  | none => UriVal.pynone
  | some s => UriVal.literal s

/-- One source descriptor of the catalog (`lang2news` inner dict).
`title`, `bg_image`, `skill_logo` and `match_confidence` are absent
(`none`) in the stored catalog and written during `search_news`. -/
structure SourceDescriptor where
  aliases : List String
  uri : UriVal
  media_type : MediaType
  match_types : List MediaType
  playback : PlaybackType
  secondary_langs : List String := []
  image : String
  title : Option String := none
  bg_image : Option String := none
  skill_logo : Option String := none
  match_confidence : Option ℚ := none
deriving DecidableEq, Repr, Inhabited

/-- The catalog shape of `NewsSkill.lang2news`: an ordered association of
language tag to an ordered association of source name to descriptor
(Python dicts preserve insertion order). -/
abbrev Catalog := List (String × List (String × SourceDescriptor))

/-- Host-provided capabilities and state consumed by the skill:
vocabulary matching (`voc_match`/`remove_voc`), fuzzy alias matching
(`match_one` with the token-sort strategy, of which only the score in
[0,1] is used), the active system language `self.lang`, the persisted
`settings.get ("default_feed")` value, and the behavior of the four
network-backed URI resolvers. -/
structure Host where
  voc_match : String → String → Bool
  remove_voc : String → String → String
  alias_match : String → List String → ℚ
  lang : String
  default_feed_setting : Option String
  resolve : String → ResolveOutcome

/-- Modelled from the spec: `MatchConfidence.AVERAGE` is a fixed constant of
the host framework's confidence scale (`ovos_workshop.frameworks.playback`),
not part of this repository; its numeric value is 50 in the host library.
None of the theorems below depend on the particular value. -/
def MatchConfidence.AVERAGE : ℚ := 50

/-- Embeds `self.skill_icon` (a fixed icon path set in `__init__`). -/
def skill_icon : String := "ui/news.png"

/-- Embeds `self.default_bg` (a fixed background path set in `__init__`). -/
def default_bg : String := "ui/bg.jpg"

/-- Embeds Python `l.split ("-") [0]`: the prefix of `l` before the first
dash (the whole string when there is no dash). -/
def baseTag (l : String) : String :=
  String.mk (l.data.takeWhile (fun c => c != '-'))

/-- Embeds Python `str.strip ()`: drop leading and trailing whitespace. -/
def pyStrip (s : String) : String :=
  String.mk (((s.data.dropWhile Char.isWhitespace).reverse.dropWhile
    Char.isWhitespace).reverse)

/-- Embeds Python `a or b` for an optional string `a` (empty string and
`None` are falsy). -/
def pyOr : Option String → String → String
  | some s, d => if s != "" then s else d
  | none, d => d

/-- The `NewsSkill.langdefaults` class attribute: default feed per language. -/
def langdefaults : List (String × String) :=
  [("pt-pt", "TSF"),
   ("ca", "CCMA"),
   ("es", "RNE"),
   ("en-gb", "BBC"),
   ("en-us", "NPR"),
   ("en-au", "ABC"),
   ("fr", "France24"),
   ("de", "Deutsche Welle")]

/-- The `NewsSkill.lang2news` class attribute: the full static catalog,
bucket and entry order as in the source (Python dicts preserve insertion
order). Image paths are the path components under the skill directory. -/
def lang2news : Catalog :=
  [("en",
    [("France24 EN",
      { aliases := ["france 24"],
        uri := UriVal.literal "youtube.channel.live//https://www.youtube.com/channel/UCQfwfsi5VrQ8yKZ-UWmAEFg",
        media_type := MediaType.NEWS,
        match_types := [MediaType.VIDEO, MediaType.TV, MediaType.NEWS],
        playback := PlaybackType.VIDEO,
        secondary_langs := ["fr"],
        image := "ui/images/FR24_EN.jpg" }),
     ("Deutsche Welle EN",
      { aliases := ["DW", "Deutsche Welle"],
        uri := UriVal.literal "youtube.channel.live//https://www.youtube.com/channel/UCknLrEdhRCp1aegoMqRaCZg",
        media_type := MediaType.NEWS,
        match_types := [MediaType.VIDEO, MediaType.TV, MediaType.NEWS],
        playback := PlaybackType.VIDEO,
        image := "ui/images/DW.jpg" }),
     ("Russia Today",
      { aliases := ["RT", "Russia Today"],
        uri := UriVal.literal "youtube.channel.live//https://www.youtube.com/user/RussiaToday",
        media_type := MediaType.NEWS,
        match_types := [MediaType.VIDEO, MediaType.TV, MediaType.NEWS],
        playback := PlaybackType.VIDEO,
        secondary_langs := ["ru"],
        image := "ui/images/RT.jpg" })]),
   ("en-us",
    [("SkyStream",
      { aliases := ["skyuri", "sky uri", "sky news", "skynews"],
        uri := UriVal.literal "https://skynews2-plutolive-vo.akamaized.net/cdhlsskynewsamericas/1013/latest.m3u8?serverSideAds=true",
        match_types := [MediaType.VIDEO, MediaType.TV, MediaType.NEWS],
        playback := PlaybackType.VIDEO,
        media_type := MediaType.NEWS,
        image := "ui/images/skystream.png",
        secondary_langs := ["en"] }),
     ("GPB",
      { aliases := ["Georgia Public Broadcasting", "GPB",
                    "Georgia Public Radio"],
        uri := UriVal.resolver "gpb",
        match_types := [MediaType.NEWS, MediaType.RADIO],
        playback := PlaybackType.AUDIO,
        media_type := MediaType.NEWS,
        image := "ui/images/gpb.png",
        secondary_langs := ["en"] }),
     ("AP",
      { aliases := ["AP Hourly Radio News", "Associated Press",
                    "Associated Press News",
                    "Associated Press Radio News",
                    "Associated Press Hourly Radio News"],
        uri := UriVal.literal "rss//https://www.spreaker.com/show/1401466/episodes/feed",
        match_types := [MediaType.NEWS, MediaType.RADIO],
        image := "ui/images/AP.png",
        playback := PlaybackType.AUDIO,
        media_type := MediaType.NEWS,
        secondary_langs := ["en"] }),
     ("FOX",
      { aliases := ["FOX News", "FOX", "Fox News Channel"],
        uri := UriVal.literal "rss//http://feeds.foxnewsradio.com/FoxNewsRadio",
        match_types := [MediaType.NEWS, MediaType.RADIO],
        playback := PlaybackType.AUDIO,
        media_type := MediaType.NEWS,
        image := "ui/images/FOX.png",
        secondary_langs := ["en"] }),
     ("NPR",
      { aliases := ["NPR News", "NPR", "National Public Radio",
                    "National Public Radio News", "NPR News Now"],
        uri := UriVal.resolver "npr",
        match_types := [MediaType.NEWS, MediaType.RADIO],
        image := "ui/images/NPR.png",
        playback := PlaybackType.AUDIO,
        media_type := MediaType.NEWS,
        secondary_langs := ["en"] }),
     ("PBS",
      { aliases := ["PBS News", "PBS", "PBS NewsHour", "PBS News Hour",
                    "National Public Broadcasting Service",
                    "Public Broadcasting Service News"],
        uri := UriVal.literal "rss//https://www.pbs.org/newshour/feeds/rss/podcasts/show",
        match_types := [MediaType.NEWS, MediaType.RADIO],
        playback := PlaybackType.AUDIO,
        media_type := MediaType.NEWS,
        image := "ui/images/PBS.png",
        secondary_langs := ["en"] }),
     ("Russia Today America",
      { aliases := ["RT", "Russia Today", "RT America",
                    "Russia Today America"],
        uri := UriVal.literal "youtube.channel.live//https://www.youtube.com/channel/UCczrL-2b-gYK3l4yDld4XlQ",
        media_type := MediaType.NEWS,
        match_types := [MediaType.VIDEO, MediaType.TV, MediaType.NEWS],
        playback := PlaybackType.VIDEO,
        secondary_langs := ["en", "ru"],
        image := "ui/images/RT_US.jpg" })]),
   ("en-gb",
    [("BBC",
      { aliases := ["British Broadcasting Corporation", "BBC",
                    "BBC News"],
        uri := UriVal.literal "rss//https://podcasts.files.bbci.co.uk/p02nq0gn.rss",
        match_types := [MediaType.NEWS, MediaType.RADIO],
        playback := PlaybackType.AUDIO,
        media_type := MediaType.NEWS,
        image := "ui/images/BBC.png",
        secondary_langs := ["en"] }),
     ("EuroNews",
      { aliases := ["euro", "euronews", "Euro News", "european",
                    "european news"],
        uri := UriVal.literal "youtube.channel.live//https://www.youtube.com/user/Euronews",
        media_type := MediaType.NEWS,
        match_types := [MediaType.VIDEO, MediaType.TV, MediaType.NEWS],
        playback := PlaybackType.VIDEO,
        image := "ui/images/euronews.png",
        secondary_langs := ["en"] }),
     ("Russia Today UK",
      { aliases := ["RT", "Russia Today", "RT UK", "Russia Today UK"],
        uri := UriVal.literal "youtube.channel.live//https://www.youtube.com/channel/UC_ab7FFA2ACk2yTHgNan8lQ",
        media_type := MediaType.NEWS,
        match_types := [MediaType.VIDEO, MediaType.TV, MediaType.NEWS],
        playback := PlaybackType.VIDEO,
        secondary_langs := ["en", "ru"],
        image := "ui/images/RT_UK.jpg" })]),
   ("en-au",
    [("ABC",
      { aliases := ["ABC News Australia", "ABC News", "ABC"],
        uri := UriVal.resolver "abc",
        match_types := [MediaType.NEWS, MediaType.RADIO],
        playback := PlaybackType.AUDIO,
        media_type := MediaType.NEWS,
        image := "ui/images/ABC.png",
        secondary_langs := ["en"] })]),
   ("en-ca",
    [("CBC",
      { aliases := ["Canadian Broadcasting Corporation", "CBC",
                    "CBC News"],
        uri := UriVal.literal "rss//https://www.cbc.ca/podcasting/includes/hourlynews.xml",
        match_types := [MediaType.NEWS, MediaType.RADIO],
        playback := PlaybackType.AUDIO,
        media_type := MediaType.NEWS,
        image := "ui/images/CBC.png",
        secondary_langs := ["en"] })]),
   ("pt-pt",
    [("TSF",
      { aliases := ["TSF", "TSF Rádio Notícias", "TSF Notícias"],
        uri := UriVal.resolver "tsf",
        media_type := MediaType.NEWS,
        match_types := [MediaType.NEWS, MediaType.RADIO],
        playback := PlaybackType.AUDIO,
        image := "ui/images/tsf.png",
        secondary_langs := ["pt"] }),
     ("RDP-AFRICA",
      { aliases := ["RDP", "RDP Africa", "Noticiários RDP África"],
        uri := UriVal.literal "http://www.rtp.pt//play/itunes/5442",
        media_type := MediaType.NEWS,
        match_types := [MediaType.NEWS, MediaType.RADIO],
        playback := PlaybackType.AUDIO,
        image := "ui/images/rdp_africa.png",
        secondary_langs := ["pt"] }),
     ("EuroNews PT",
      { aliases := ["euro", "euronews", "Euro News", "european",
                    "european news"],
        uri := UriVal.literal "youtube.channel.live//https://www.youtube.com/user/euronewspt",
        media_type := MediaType.NEWS,
        match_types := [MediaType.VIDEO, MediaType.TV, MediaType.NEWS],
        playback := PlaybackType.VIDEO,
        image := "ui/images/euronews.png",
        secondary_langs := ["pt"] })]),
   ("de",
    [("Deutsche Welle",
      { aliases := ["DW", "Deutsche Welle"],
        uri := UriVal.literal "youtube.channel.live//https://www.youtube.com/c/dwdeutsch",
        media_type := MediaType.NEWS,
        match_types := [MediaType.VIDEO, MediaType.TV, MediaType.NEWS],
        playback := PlaybackType.VIDEO,
        image := "ui/images/DW.jpg" }),
     ("OE3",
      { aliases := ["OE3", "Ö3 Nachrichten"],
        uri := UriVal.literal "https://oe3meta.orf.at/oe3mdata/StaticAudio/Nachrichten.mp3",
        media_type := MediaType.NEWS,
        match_types := [MediaType.NEWS, MediaType.RADIO],
        image := "ui/images/oe3.jpeg",
        playback := PlaybackType.AUDIO }),
     ("DLF",
      { aliases := ["DLF", "deutschlandfunk"],
        uri := UriVal.literal "rss//https://www.deutschlandfunk.de/podcast-nachrichten.1257.de.podcast.xml",
        media_type := MediaType.NEWS,
        match_types := [MediaType.NEWS, MediaType.RADIO],
        image := "ui/images/DLF.png",
        playback := PlaybackType.AUDIO }),
     ("WDR",
      { aliases := ["WDR"],
        uri := UriVal.literal "https://www1.wdr.de/mediathek/audio/wdr-aktuell-news/wdr-aktuell-152.podcast",
        media_type := MediaType.NEWS,
        match_types := [MediaType.NEWS, MediaType.RADIO],
        image := "ui/images/WDR.png",
        playback := PlaybackType.AUDIO }),
     ("EuroNews DE",
      { aliases := ["euro", "euronews", "Euro News", "european",
                    "european news"],
        uri := UriVal.literal "youtube.channel.live//https://www.youtube.com/user/euronewsde",
        media_type := MediaType.NEWS,
        match_types := [MediaType.VIDEO, MediaType.TV, MediaType.NEWS],
        playback := PlaybackType.VIDEO,
        image := "ui/images/euronews.png" })]),
   ("nl",
    [("VRT",
      { aliases := ["VRT Nieuws", "VRT"],
        uri := UriVal.literal "https://progressive-audio.lwc.vrtcdn.be/content/fixed/11_11niws-snip_hi.mp3",
        media_type := MediaType.NEWS,
        match_types := [MediaType.NEWS, MediaType.RADIO],
        image := "ui/images/vrt.png",
        playback := PlaybackType.AUDIO })]),
   ("sv",
    [("Ekot",
      { aliases := ["Ekot"],
        uri := UriVal.literal "rss//https://api.sr.se/api/rss/pod/3795",
        media_type := MediaType.NEWS,
        match_types := [MediaType.NEWS, MediaType.RADIO],
        image := "ui/images/Ekot.png",
        playback := PlaybackType.AUDIO })]),
   ("es",
    [("RNE",
      { aliases := ["RNE", "National Spanish Radio",
                    "Radio Nacional de España"],
        media_type := MediaType.NEWS,
        uri := UriVal.literal "rss//http://api.rtve.es/api/programas/36019/audios.rs",
        match_types := [MediaType.NEWS, MediaType.RADIO],
        image := "ui/images/rne.png",
        playback := PlaybackType.AUDIO }),
     ("France24 ES",
      { aliases := ["france 24"],
        uri := UriVal.literal "youtube.channel.live//https://www.youtube.com/channel/UCUdOoVWuWmgo1wByzcsyKDQ",
        media_type := MediaType.NEWS,
        match_types := [MediaType.VIDEO, MediaType.TV, MediaType.NEWS],
        playback := PlaybackType.VIDEO,
        secondary_langs := ["fr"],
        image := "ui/images/FR24_ES.jpg" }),
     ("EuroNews ES",
      { aliases := ["euro", "euronews", "Euro News", "european",
                    "european news"],
        uri := UriVal.literal "youtube.channel.live//https://www.youtube.com/user/euronewses",
        media_type := MediaType.NEWS,
        match_types := [MediaType.VIDEO, MediaType.TV, MediaType.NEWS],
        playback := PlaybackType.VIDEO,
        image := "ui/images/euronews.png" }),
     ("Deutsche Welle ES",
      { aliases := ["DW", "Deutsche Welle"],
        uri := UriVal.literal "youtube.channel.live//https://www.youtube.com/channel/UCT4Jg8h03dD0iN3Pb5L0PMA",
        media_type := MediaType.NEWS,
        match_types := [MediaType.VIDEO, MediaType.TV, MediaType.NEWS],
        playback := PlaybackType.VIDEO,
        image := "ui/images/DW.jpg" })]),
   ("ca",
    [("CCMA",
      { aliases := ["CCMA", "Catalunya Informació"],
        uri := UriVal.literal "https://de1.api.radio-browser.info/pls/url/69bc7084-523c-11ea-be63-52543be04c81",
        media_type := MediaType.NEWS,
        match_types := [MediaType.NEWS, MediaType.RADIO],
        playback := PlaybackType.AUDIO,
        image := "ui/images/CCMA.png",
        secondary_langs := ["es"] })]),
   ("fi",
    [("YLE",
      { aliases := ["YLE", "YLE News Radio"],
        uri := UriVal.literal "rss//https://feeds.yle.fi/areena/v1/series/1-1440981.rss",
        media_type := MediaType.NEWS,
        match_types := [MediaType.NEWS, MediaType.RADIO],
        image := "ui/images/Yle.png",
        playback := PlaybackType.AUDIO })]),
   ("ru",
    [("EuroNews RU",
      { aliases := ["euro", "euronews", "Euro News", "european",
                    "european news"],
        uri := UriVal.literal "youtube.channel.live//https://www.youtube.com/user/euronewsru",
        media_type := MediaType.NEWS,
        match_types := [MediaType.VIDEO, MediaType.TV, MediaType.NEWS],
        playback := PlaybackType.VIDEO,
        image := "ui/images/euronews.png" })]),
   ("it",
    [("EuroNews IT",
      { aliases := ["euro", "euronews", "Euro News", "european",
                    "european news"],
        uri := UriVal.literal "youtube.channel.live//https://www.youtube.com/user/euronewsit",
        media_type := MediaType.NEWS,
        match_types := [MediaType.VIDEO, MediaType.TV, MediaType.NEWS],
        playback := PlaybackType.VIDEO,
        image := "ui/images/euronews.png" })]),
   ("fr",
    [("France24",
      { aliases := ["france 24"],
        uri := UriVal.literal "youtube.channel.live//https://www.youtube.com/channel/UCCCPCZNChQdGa9EkATeye4g",
        media_type := MediaType.NEWS,
        match_types := [MediaType.VIDEO, MediaType.TV, MediaType.NEWS],
        playback := PlaybackType.VIDEO,
        image := "ui/images/FR24.jpg" }),
     ("EuroNews FR",
      { aliases := ["euro", "euronews", "Euro News", "european",
                    "european news"],
        uri := UriVal.literal "youtube.channel.live//https://www.youtube.com/user/euronewsfr",
        media_type := MediaType.NEWS,
        match_types := [MediaType.VIDEO, MediaType.TV, MediaType.NEWS],
        playback := PlaybackType.VIDEO,
        image := "ui/images/euronews.png" }),
     ("Russia Today France",
      { aliases := ["RT", "Russia Today"],
        uri := UriVal.literal "youtube.channel.live//https://www.youtube.com/channel/UCqEVwTnDzlzKOGYNFemqnYA",
        media_type := MediaType.NEWS,
        match_types := [MediaType.VIDEO, MediaType.TV, MediaType.NEWS],
        playback := PlaybackType.VIDEO,
        secondary_langs := ["ru"],
        image := "ui/images/RT_FR.jpg" })])]

/-- The NPR descriptor as stored in the catalog at skill load (bucket
"en-us", name "NPR"): its `uri` is the `npr` resolver function. -/
def nprDescriptor : SourceDescriptor :=
  { aliases := ["NPR News", "NPR", "National Public Radio",
                "National Public Radio News", "NPR News Now"],
    uri := UriVal.resolver "npr",
    match_types := [MediaType.NEWS, MediaType.RADIO],
    image := "ui/images/NPR.png",
    playback := PlaybackType.AUDIO,
    media_type := MediaType.NEWS,
    secondary_langs := ["en"] }

/-- Embeds `NewsSkill.clean_phrase` (source lines 547-569): remove the
"news" vocabulary; then, unless the remaining phrase matches the "fr24" or
"rt" channel-name vocabulary, remove the thirteen language vocabularies in
the source's fixed order; finally Python-strip the result. The "fr" and
"ru" vocabularies are never removed. -/
def clean_phrase (h : Host) (phrase : String) : String :=
  let phrase := h.remove_voc phrase "news"
  if !(h.voc_match phrase "fr24") && !(h.voc_match phrase "rt") then
    let phrase := h.remove_voc phrase "pt-pt"
    let phrase := h.remove_voc phrase "en-au"
    let phrase := h.remove_voc phrase "en-us"
    let phrase := h.remove_voc phrase "en-ca"
    let phrase := h.remove_voc phrase "en-gb"
    let phrase := h.remove_voc phrase "es"
    let phrase := h.remove_voc phrase "it"
    let phrase := h.remove_voc phrase "fi"
    let phrase := h.remove_voc phrase "de"
    let phrase := h.remove_voc phrase "sv"
    let phrase := h.remove_voc phrase "nl"
    let phrase := h.remove_voc phrase "en"
    let phrase := h.remove_voc phrase "ca"
    pyStrip phrase
  else
    pyStrip phrase

/-- The thirteen language tags whose vocabularies `clean_phrase` removes,
in the source's removal order. -/
def stripLangTags : List String :=
  ["pt-pt", "en-au", "en-us", "en-ca", "en-gb", "es", "it", "fi", "de",
   "sv", "nl", "en", "ca"]

/-- Sequentially remove the vocabularies of a list of tags from a phrase
(characterizes the thirteen `remove_voc` steps of `clean_phrase`). -/
def stripAll (h : Host) (tags : List String) (phrase : String) : String :=
  tags.foldl (fun p t => h.remove_voc p t) phrase

/-- Embeds the tag-collection part of `NewsSkill.match_lang` (source lines
572-608): the value of the local `langs` before the base tags are
appended, honoring "fr" only without an "fr24" match and "ru" only without
an "rt" match. -/
def match_lang_pre (h : Host) (phrase : String) : List String :=
  (if h.voc_match phrase "pt-pt" then ["pt-pt"] else []) ++
  (if h.voc_match phrase "en-au" then ["en-au"] else []) ++
  (if h.voc_match phrase "en-us" then ["en-us"] else []) ++
  (if h.voc_match phrase "en-gb" then ["en-gb"] else []) ++
  (if h.voc_match phrase "en-ca" then ["en-ca"] else []) ++
  (if h.voc_match phrase "en" then ["en"] else []) ++
  (if h.voc_match phrase "es" then ["es"] else []) ++
  (if h.voc_match phrase "ca" then ["ca"] else []) ++
  (if h.voc_match phrase "de" then ["de"] else []) ++
  (if h.voc_match phrase "nl" then ["nl"] else []) ++
  (if h.voc_match phrase "fi" then ["fi"] else []) ++
  (if h.voc_match phrase "sv" then ["sv"] else []) ++
  (if h.voc_match phrase "it" then ["it"] else []) ++
  (if h.voc_match phrase "fr" && !(h.voc_match phrase "fr24")
   then ["fr"] else []) ++
  (if h.voc_match phrase "ru" && !(h.voc_match phrase "rt")
   then ["ru"] else [])

/-- Embeds `NewsSkill.match_lang` (source lines 571-611): the collected
tags followed by the base tag of every collected tag (source line 610,
`langs += [l.split ("-") [0] for l in langs]`). -/
def match_lang (h : Host) (phrase : String) : List String :=
  match_lang_pre h phrase ++ (match_lang_pre h phrase).map baseTag

/-- Embeds the `default_feeds` computation of `search_news` (source lines
646-662): only when the cleaned phrase is empty, collect the per-language
defaults for the detected languages, and, when no language was detected,
the persisted "default_feed" setting if set. -/
def default_feeds (h : Host) (cleaned : String) (langs : List String) :
    List String :=
  if cleaned = "" then
    (langs.filterMap (fun lang =>
      match langdefaults.lookup lang with
      | some feed => if feed != "" then some feed else none
      | none => none)) ++
    (if langs = [] then
      match h.default_feed_setting with
      | some feed => if feed != "" then [feed] else []
      | none => []
    else [])
  else []

/-- Embeds `langs = langs or [self.lang, self.lang.split ("-") [0]]`
(source line 665): the effective language set used for the language bonus. -/
def effectiveLangs (h : Host) (langs : List String) : List String :=
  if langs = [] then [h.lang, baseTag h.lang] else langs

/-- Embeds the base-score computation of `search_news` (source lines
635-642): 50 for a NEWS request, -20 otherwise. -/
def baseScore (media_type : MediaType) : ℚ :=
  let score : ℚ := 0
  if media_type = MediaType.NEWS then 50 else score - 20

/-- Embeds the language-bonus branch of `search_news` (source lines
674-681): +20 when the source's bucket language is in the effective set,
else +10 when the effective set meets the source's secondary languages,
else -20. -/
def langBonus (langs : List String) (l : String)
    (secondary : List String) : ℚ :=
  if l ∈ langs then 20
  else if langs.any (fun lang => secondary.contains lang) then 10
  else -20

/-- Embeds the per-source confidence computation of `search_news` (source
lines 669-689): base score plus `alias_score * 60`, then the language
bonus, then the default-feed bonus, clamped to at most 100. -/
def srcConf (h : Host) (score : ℚ) (langs feeds : List String)
    (phrase l k : String) (v : SourceDescriptor) : ℚ :=
  let conf := score + h.alias_match phrase v.aliases * 60
  let conf := conf + langBonus langs l v.secondary_langs
  let conf := if feeds.contains k then conf + 30 else conf
  min conf 100

/-- Embeds the result construction of `search_news` (source lines
700-704): a candidate is kept only when its (post-resolution) `uri` is
truthy, in which case `title`, `bg_image` and `skill_logo` are filled in
on the shared descriptor and the descriptor is appended to the results. -/
def finishCandidate (k : String) (v : SourceDescriptor) :
    SourceDescriptor × Option SourceDescriptor :=
  if uriTruthy v.uri then
    let v := { v with
      title := some (pyOr v.title k),
      bg_image := some (pyOr v.bg_image default_bg),
      skill_logo := some skill_icon }
    (v, some v)
  else
    (v, none)

/-- Embeds the URI-resolution step of `search_news` (source lines
694-699): a callable `uri` is invoked; an exception is logged and the
candidate skipped (`continue`), leaving the descriptor's `uri` untouched;
a returned value replaces the descriptor's `uri` in place. -/
def resolveAndFill (h : Host) (k : String) (v : SourceDescriptor) :
    SourceDescriptor × Option SourceDescriptor :=
  match v.uri with
  | UriVal.resolver rid =>
    match h.resolve rid with
    | ResolveOutcome.raises => (v, none)
    | ResolveOutcome.returns r => finishCandidate k { v with uri := uriOfPy r }
  | _ => finishCandidate k v

/-- Embeds the body of the catalog loop of `search_news` (source lines
668-704) for one source: annotate the shared descriptor with its
confidence, then resolve and collect it when the confidence reaches
`MatchConfidence.AVERAGE` or the request is a NEWS request. The first
component is the descriptor as left in the catalog; the second is its
contribution to the result list. -/
def processSource (h : Host) (media_type : MediaType) (score : ℚ)
    (langs feeds : List String) (phrase l k : String)
    (v : SourceDescriptor) : SourceDescriptor × Option SourceDescriptor :=
  let conf := srcConf h score langs feeds phrase l k v
  let v := { v with match_confidence := some conf }
  if MatchConfidence.AVERAGE ≤ conf ∨ media_type = MediaType.NEWS then
    resolveAndFill h k v
  else
    (v, none)

/-- Embeds `NewsSkill.search_news` (source lines 613-705). The catalog is
the mutable shared state `self.lang2news`; the function returns the result
list together with the catalog as mutated by the call (confidence
annotations on every entry, resolved URIs where a resolver ran). -/
def search_news (h : Host) (catalog : Catalog) (phrase : String)
    (media_type : MediaType) : List SourceDescriptor × Catalog :=
  let langs := match_lang h phrase
  let score := baseScore media_type
  let cleaned := clean_phrase h phrase
  let feeds := default_feeds h cleaned langs
  let elangs := effectiveLangs h langs
  ((catalog.map (fun lb =>
      lb.2.filterMap (fun kv =>
        (processSource h media_type score elangs feeds cleaned
          lb.1 kv.1 kv.2).2))).flatten,
   catalog.map (fun lb =>
      (lb.1, lb.2.map (fun kv =>
        (kv.1, (processSource h media_type score elangs feeds cleaned
          lb.1 kv.1 kv.2).1)))))

/-- Look up the descriptor stored for bucket `l`, source name `k`. -/
def catDescr (c : Catalog) (l k : String) : Option SourceDescriptor :=
  match c.lookup l with
  | some bucket => bucket.lookup k
  | none => none

/-- Decide whether `sub` occurs as a contiguous sublist of `p`. -/
def hasSublist : List Char → List Char → Bool
  | [], sub => sub.isEmpty
  | c :: rest, sub => sub.isPrefixOf (c :: rest) || hasSublist rest sub

/-- Remove the first occurrence of `sub` from `p` (identity when absent). -/
def removeSublist : List Char → List Char → List Char
  | [], _ => []
  | c :: rest, sub =>
    if sub.isPrefixOf (c :: rest) then (c :: rest).drop sub.length
    else c :: removeSublist rest sub

/-- Modelled from the spec: the vocabulary files (`news.voc`, `fr24.voc`,
`rt.voc`, and one per language tag) are not under `src/`; this fixture
models each vocabulary by one representative trigger, following the spec's
examples ("france 24", "russia today", "german news", ...). -/
def vocTriggers : List (String × String) :=
  [("news", "news"),
   ("fr24", "france 24"),
   ("rt", "russia today"),
   ("fr", "france"),
   ("ru", "russia"),
   ("pt-pt", "portuguese"),
   ("en-au", "australian"),
   ("en-us", "american"),
   ("en-ca", "canadian"),
   ("en-gb", "british"),
   ("es", "spanish"),
   ("it", "italian"),
   ("fi", "finnish"),
   ("de", "german"),
   ("sv", "swedish"),
   ("nl", "dutch"),
   ("en", "english"),
   ("ca", "catalan")]

/-- Modelled from the spec: fixture `voc_match` — the phrase matches a
vocabulary when it contains that vocabulary's trigger. -/
def fixVocMatch (p tag : String) : Bool :=
  match vocTriggers.lookup tag with
  | some trig => hasSublist p.data trig.data
  | none => false

/-- Modelled from the spec: fixture `remove_voc` — remove the vocabulary's
trigger from the phrase when present. -/
def fixRemoveVoc (p tag : String) : String :=
  match vocTriggers.lookup tag with
  | some trig => String.mk (removeSublist p.data trig.data)
  | none => p

/-- Concrete host with the spec-modelled vocabulary fixture, a zero fuzzy
matcher, system language `en-us`, no persisted default feed, and resolvers
that return a fixed stream URL. -/
def hostA : Host :=
  { voc_match := fixVocMatch,
    remove_voc := fixRemoveVoc,
    alias_match := fun _ _ => 0,
    lang := "en-us",
    default_feed_setting := none,
    resolve := fun _ => ResolveOutcome.returns
      (some "http://resolved.example/stream.mp3") }

/-- Concrete host whose vocabularies match nothing (so no language is
detected and the cleaned phrase is empty), with succeeding resolvers. -/
def hostB : Host :=
  { voc_match := fun _ _ => false,
    remove_voc := fun _ _ => "",
    alias_match := fun _ _ => 0,
    lang := "en-us",
    default_feed_setting := none,
    resolve := fun _ => ResolveOutcome.returns
      (some "http://resolved.example/stream.mp3") }

/-- A literal-URI source descriptor for small concrete runs. -/
def descX : SourceDescriptor :=
  { aliases := ["x news"],
    uri := UriVal.literal "http://x.example/stream",
    media_type := MediaType.NEWS,
    match_types := [MediaType.NEWS],
    playback := PlaybackType.AUDIO,
    image := "ui/images/x.png" }

/-- A resolver-backed source descriptor for small concrete runs. -/
def descR : SourceDescriptor :=
  { aliases := ["r news"],
    uri := UriVal.resolver "gpb",
    media_type := MediaType.NEWS,
    match_types := [MediaType.NEWS],
    playback := PlaybackType.AUDIO,
    image := "ui/images/r.png" }

/-- A two-source catalog for small concrete runs. -/
def catW : Catalog := [("en", [("X", descX), ("R", descR)])]

/-- Membership in a conditional singleton list. -/
theorem mem_cond_singleton {x t : String} {b : Bool} :
    x ∈ (if b then [t] else ([] : List String)) ↔ b = true ∧ x = t := by
  cases b <;> simp

/-- The base score is 50 for NEWS and -20 otherwise. -/
theorem baseScore_eq (mt : MediaType) :
    baseScore mt = if mt = MediaType.NEWS then (50 : ℚ) else -20 := by
  simp only [baseScore]
  split_ifs <;> norm_num

/-- Closed form of the per-source confidence computation. -/
theorem srcConf_eq (h : Host) (score : ℚ) (langs feeds : List String)
    (phrase l k : String) (v : SourceDescriptor) :
    srcConf h score langs feeds phrase l k v
      = min (score + h.alias_match phrase v.aliases * 60
          + langBonus langs l v.secondary_langs
          + (if feeds.contains k then (30 : ℚ) else 0)) 100 := by
  simp only [srcConf]
  split_ifs with hc
  · rfl
  · rw [add_zero]

/-- Display filling never touches the stored confidence. -/
theorem finishCandidate_fst_mc (k : String) (v : SourceDescriptor) :
    (finishCandidate k v).1.match_confidence = v.match_confidence := by
  simp only [finishCandidate]
  split_ifs <;> rfl

/-- URI resolution never touches the stored confidence. -/
theorem resolveAndFill_fst_mc (h : Host) (k : String) (v : SourceDescriptor) :
    (resolveAndFill h k v).1.match_confidence = v.match_confidence := by
  simp only [resolveAndFill]
  split
  · split
    · rfl
    · exact finishCandidate_fst_mc _ _
  · exact finishCandidate_fst_mc _ _

/-- The descriptor left in the catalog always carries the computed
confidence. -/
theorem processSource_fst_mc (h : Host) (mt : MediaType) (score : ℚ)
    (langs feeds : List String) (phrase l k : String) (v : SourceDescriptor) :
    (processSource h mt score langs feeds phrase l k v).1.match_confidence
      = some (srcConf h score langs feeds phrase l k v) := by
  simp only [processSource]
  split_ifs with hg
  · rw [resolveAndFill_fst_mc]
  · rfl

/-- C1: in `search_news`, for every catalog source descriptor the
confidence before language/default adjustments is a base score of 50 for a
NEWS request and -20 otherwise plus `aliasScore * 60` with the alias score
in [0,1], and the final stored confidence is that quantity plus the
language and default-feed bonuses clamped to at most 100, never from
below: a concrete wrong-language non-NEWS source is stored at -40. -/
theorem confidence_formula (h : Host) (mt : MediaType)
    (langs feeds : List String) (cleaned l k : String) (v : SourceDescriptor)
    (ha0 : 0 ≤ h.alias_match cleaned v.aliases)
    (ha1 : h.alias_match cleaned v.aliases ≤ 1) :
    (processSource h mt (baseScore mt) langs feeds cleaned l k v).1.match_confidence
      = some (min ((if mt = MediaType.NEWS then (50 : ℚ) else -20)
          + h.alias_match cleaned v.aliases * 60
          + langBonus langs l v.secondary_langs
          + (if feeds.contains k then (30 : ℚ) else 0)) 100)
    ∧ (if mt = MediaType.NEWS then (50 : ℚ) else -20)
        ≤ (if mt = MediaType.NEWS then (50 : ℚ) else -20)
            + h.alias_match cleaned v.aliases * 60
    ∧ (if mt = MediaType.NEWS then (50 : ℚ) else -20)
            + h.alias_match cleaned v.aliases * 60
        ≤ (if mt = MediaType.NEWS then (50 : ℚ) else -20) + 60
    ∧ (∀ q, (processSource h mt (baseScore mt) langs feeds cleaned l k v).1.match_confidence
          = some q → q ≤ 100)
    ∧ (processSource hostB MediaType.GENERIC (baseScore MediaType.GENERIC)
          ["en-us", "en"] [] "" "fr" "X" descX).1.match_confidence = some (-40)
    ∧ (-40 : ℚ) < 0 := by
  have hm0 : (0 : ℚ) ≤ h.alias_match cleaned v.aliases * 60 := by positivity
  have hm1 : h.alias_match cleaned v.aliases * 60 ≤ 60 := by nlinarith
  refine ⟨?_, by linarith, by linarith, ?_, ?_, by norm_num⟩
  · rw [processSource_fst_mc, srcConf_eq, baseScore_eq]
  · intro q hq
    rw [processSource_fst_mc] at hq
    have : q = srcConf h (baseScore mt) langs feeds cleaned l k v :=
      (Option.some.injEq _ _).mp hq.symm
    rw [this, srcConf_eq]
    exact min_le_right _ _
  · rw [processSource_fst_mc, srcConf_eq]
    norm_num [baseScore, langBonus, hostB, descX]
    rw [if_neg (by decide : ¬ (MediaType.GENERIC = MediaType.NEWS)),
      if_neg (by decide : ¬ (("fr" : String) = "en-us" ∨ ("fr" : String) = "en"))]
    norm_num

/-- Witness for C1 at a concrete host, source and request. -/
theorem confidence_formula_witness :
    (processSource hostB MediaType.NEWS (baseScore MediaType.NEWS)
        ["en"] [] "" "en" "X" descX).1.match_confidence
      = some (min ((if MediaType.NEWS = MediaType.NEWS then (50 : ℚ) else -20)
          + hostB.alias_match "" descX.aliases * 60
          + langBonus ["en"] "en" descX.secondary_langs
          + (if List.contains [] "X" then (30 : ℚ) else 0)) 100) :=
  (confidence_formula hostB MediaType.NEWS ["en"] [] "" "en" "X" descX
    (by norm_num [hostB]) (by norm_num [hostB])).1

/-- C2: in `search_news`, the language bonus is computed against the
effective language set — the detected languages when non-empty, otherwise
the system language plus its base tag — and for every source exactly one
of +20 (bucket language in the set), +10 (set meets the secondary
languages), or -20 (neither) is added. -/
theorem language_bonus_cases (h : Host) (langs : List String) (l : String)
    (secondary : List String) :
    effectiveLangs h [] = [h.lang, baseTag h.lang]
    ∧ (langs ≠ [] → effectiveLangs h langs = langs)
    ∧ (l ∈ langs → langBonus langs l secondary = 20)
    ∧ (l ∉ langs → (∃ x ∈ langs, x ∈ secondary) →
        langBonus langs l secondary = 10)
    ∧ (l ∉ langs → ¬ (∃ x ∈ langs, x ∈ secondary) →
        langBonus langs l secondary = -20)
    ∧ (langBonus langs l secondary = 20 ∨ langBonus langs l secondary = 10
        ∨ langBonus langs l secondary = -20) := by
  have hany : (langs.any (fun lang => secondary.contains lang) = true)
      ↔ ∃ x ∈ langs, x ∈ secondary := by
    simp [List.any_eq_true]
  refine ⟨by simp [effectiveLangs], ?_, ?_, ?_, ?_, ?_⟩
  · intro hne
    simp [effectiveLangs, hne]
  · intro hl
    simp [langBonus, hl]
  · intro hl hex
    rw [langBonus, if_neg hl, if_pos (hany.mpr hex)]
  · intro hl hex
    rw [langBonus, if_neg hl, if_neg (fun hc => hex (hany.mp hc))]
  · by_cases hl : l ∈ langs
    · exact Or.inl (by simp [langBonus, hl])
    · by_cases hx : ∃ x ∈ langs, x ∈ secondary
      · exact Or.inr (Or.inl (by rw [langBonus, if_neg hl, if_pos (hany.mpr hx)]))
      · exact Or.inr (Or.inr (by rw [langBonus, if_neg hl, if_neg (fun hc => hx (hany.mp hc))]))

/-- Witness for C2 at a concrete effective set and source. -/
theorem language_bonus_cases_witness :
    langBonus ["de"] "de" [] = 20 ∧ effectiveLangs hostB ["de"] = ["de"]
    ∧ langBonus ["en-us", "en"] "pt-pt" ["pt"] = -20 :=
  ⟨(language_bonus_cases hostB ["de"] "de" []).2.2.1 (by decide),
   (language_bonus_cases hostB ["de"] "de" []).2.1 (by decide),
   (language_bonus_cases hostB ["en-us", "en"] "pt-pt" ["pt"]).2.2.2.2.1
     (by decide) (by decide)⟩

/-- A successful association-list lookup returns one of the stored values. -/
theorem lookup_val_mem {α β : Type} [BEq α] (a : α) (l : List (α × β)) (b : β)
    (h : l.lookup a = some b) : b ∈ l.map Prod.snd := by
  induction l with
  | nil => simp [List.lookup] at h
  | cons p t ih =>
    obtain ⟨k, v⟩ := p
    rw [List.lookup_cons] at h
    cases h2 : a == k with
    | true =>
      rw [h2] at h
      simp only [Option.some.injEq] at h
      subst h
      simp
    | false =>
      rw [h2] at h
      simp only [List.map_cons, List.mem_cons]
      exact Or.inr (ih h)

/-- Every default feed name stored in `langdefaults` is non-empty. -/
theorem langdefaults_values_ne (f : String)
    (h : f ∈ langdefaults.map Prod.snd) : f ≠ "" := by
  simp only [langdefaults, List.map_cons, List.map_nil, List.mem_cons,
    List.not_mem_nil, or_false] at h
  rcases h with h | h | h | h | h | h | h | h <;> subst h <;> decide

/-- C3: in `search_news`, the +30 default-feed bonus applies exactly to
sources named in `default_feeds`, and `default_feeds` is: the per-language
defaults of the detected languages when the cleaned phrase is empty and
languages were detected; the persisted "default_feed" setting when both
are empty; and empty whenever the cleaned phrase is non-empty. -/
theorem default_feed_bonus (h : Host) (cleaned : String)
    (langs : List String) (f : String) (score : ℚ) (L F : List String)
    (p l k : String) (v : SourceDescriptor) :
    (cleaned ≠ "" → default_feeds h cleaned langs = [])
    ∧ (langs ≠ [] → (f ∈ default_feeds h "" langs
        ↔ ∃ lang ∈ langs, langdefaults.lookup lang = some f))
    ∧ (∀ fd, h.default_feed_setting = some fd → fd ≠ "" →
        default_feeds h "" [] = [fd])
    ∧ (h.default_feed_setting = none → default_feeds h "" [] = [])
    ∧ (k ∈ F → srcConf h score L F p l k v
        = min (score + h.alias_match p v.aliases * 60
            + langBonus L l v.secondary_langs + 30) 100)
    ∧ (k ∉ F → srcConf h score L F p l k v
        = min (score + h.alias_match p v.aliases * 60
            + langBonus L l v.secondary_langs) 100) := by
  refine ⟨?_, ?_, ?_, ?_, ?_, ?_⟩
  · intro hne
    simp [default_feeds, hne]
  · intro hne
    have hgoal : default_feeds h "" langs = langs.filterMap (fun lang =>
        match langdefaults.lookup lang with
        | some feed => if feed != "" then some feed else none
        | none => none) := by
      simp [default_feeds, hne]
    rw [hgoal, List.mem_filterMap]
    constructor
    · rintro ⟨lang, hlang, hg⟩
      refine ⟨lang, hlang, ?_⟩
      cases hlk : langdefaults.lookup lang with
      | none => rw [hlk] at hg; exact absurd hg (by simp)
      | some feed =>
        rw [hlk] at hg
        have hfe : feed ≠ "" :=
          langdefaults_values_ne feed (lookup_val_mem lang _ feed hlk)
        simp only [bne_iff_ne, ne_eq, hfe, not_false_eq_true, if_true,
          Option.some.injEq] at hg
        rw [hg]
    · rintro ⟨lang, hlang, hlk⟩
      refine ⟨lang, hlang, ?_⟩
      have hfe : f ≠ "" :=
        langdefaults_values_ne f (lookup_val_mem lang _ f hlk)
      rw [hlk]
      simp [bne_iff_ne, hfe]
  · intro fd hset hfd
    simp [default_feeds, hset, bne_iff_ne, hfd]
  · intro hset
    simp [default_feeds, hset]
  · intro hk
    rw [srcConf_eq, if_pos (by simpa [List.contains, List.elem_eq_mem] using hk)]
  · intro hk
    rw [srcConf_eq, if_neg (by simpa [List.contains, List.elem_eq_mem] using hk),
      add_zero]

/-- Witness for C3 at concrete phrases, languages and settings. -/
theorem default_feed_bonus_witness :
    default_feeds hostB "x news" ["de"] = []
    ∧ ("Deutsche Welle" ∈ default_feeds hostB "" ["de"]
        ↔ ∃ lang ∈ ["de"], langdefaults.lookup lang = some "Deutsche Welle")
    ∧ default_feeds hostB "" [] = []
    ∧ srcConf hostB 50 ["en"] ["X"] "" "en" "X" descX
        = min ((50 : ℚ) + hostB.alias_match "" descX.aliases * 60
            + langBonus ["en"] "en" descX.secondary_langs + 30) 100 :=
  ⟨(default_feed_bonus hostB "x news" ["de"] "" 0 [] [] "" "" "" descX).1
      (by decide),
   (default_feed_bonus hostB "" ["de"] "Deutsche Welle" 0 [] [] "" "" ""
      descX).2.1 (by decide),
   (default_feed_bonus hostB "" [] "" 0 [] [] "" "" "" descX).2.2.2.1 rfl,
   (default_feed_bonus hostB "" [] "" 50 ["en"] ["X"] "" "en" "X"
      descX).2.2.2.2.1 (by decide)⟩

/-- C4: in `search_news`, a source proceeds to URI resolution (and can
appear in the results) exactly when its clamped confidence reaches
`MatchConfidence.AVERAGE` or the requested media type is NEWS; for a NEWS
request every catalog source is evaluated regardless of its score. -/
theorem inclusion_filter (h : Host) (mt : MediaType) (score : ℚ)
    (L F : List String) (p l k : String) (v : SourceDescriptor) :
    ((processSource h mt score L F p l k v).2 ≠ none →
      MatchConfidence.AVERAGE ≤ srcConf h score L F p l k v
        ∨ mt = MediaType.NEWS)
    ∧ (¬ (MatchConfidence.AVERAGE ≤ srcConf h score L F p l k v
        ∨ mt = MediaType.NEWS) →
      processSource h mt score L F p l k v
        = ({ v with match_confidence := some (srcConf h score L F p l k v) },
            none))
    ∧ (MatchConfidence.AVERAGE ≤ srcConf h score L F p l k v
        ∨ mt = MediaType.NEWS →
      processSource h mt score L F p l k v
        = resolveAndFill h k
            { v with match_confidence := some (srcConf h score L F p l k v) })
    ∧ (mt = MediaType.NEWS →
      processSource h mt score L F p l k v
        = resolveAndFill h k
            { v with match_confidence := some (srcConf h score L F p l k v) }) := by
  have hB : ¬ (MatchConfidence.AVERAGE ≤ srcConf h score L F p l k v
      ∨ mt = MediaType.NEWS) →
      processSource h mt score L F p l k v
        = ({ v with match_confidence := some (srcConf h score L F p l k v) },
            none) := by
    intro hg
    simp only [processSource]
    rw [if_neg hg]
  have hC : MatchConfidence.AVERAGE ≤ srcConf h score L F p l k v
      ∨ mt = MediaType.NEWS →
      processSource h mt score L F p l k v
        = resolveAndFill h k
            { v with match_confidence := some (srcConf h score L F p l k v) } := by
    intro hg
    simp only [processSource]
    rw [if_pos hg]
  refine ⟨?_, hB, hC, fun hmt => hC (Or.inr hmt)⟩
  intro h2
  by_contra hng
  exact h2 (by rw [hB hng])

/-- Witness for C4: a NEWS request evaluates a concrete source. -/
theorem inclusion_filter_witness :
    processSource hostB MediaType.NEWS 50 [] [] "" "en" "X" descX
      = resolveAndFill hostB "X"
          { descX with
            match_confidence := some (srcConf hostB 50 [] [] "" "en" "X" descX) } :=
  (inclusion_filter hostB MediaType.NEWS 50 [] [] "" "en" "X" descX).2.2.2 rfl

/-- A raising resolver leaves the descriptor untouched and yields no result. -/
theorem resolveAndFill_raises (h : Host) (k : String) (v : SourceDescriptor)
    (rid : String) (hv : v.uri = UriVal.resolver rid)
    (hres : h.resolve rid = ResolveOutcome.raises) :
    resolveAndFill h k v = (v, none) := by
  simp [resolveAndFill, hv, hres]

/-- A resolver returning a falsy value yields no result. -/
theorem resolveAndFill_empty (h : Host) (k : String) (v : SourceDescriptor)
    (rid : String) (r : Option String) (hv : v.uri = UriVal.resolver rid)
    (hres : h.resolve rid = ResolveOutcome.returns r)
    (hr : uriTruthy (uriOfPy r) = false) :
    (resolveAndFill h k v).2 = none := by
  simp [resolveAndFill, hv, hres, finishCandidate, hr]

/-- A source whose resolver raises contributes nothing to the results. -/
theorem processSource_raises (h : Host) (mt : MediaType) (score : ℚ)
    (L F : List String) (p l k : String) (v : SourceDescriptor) (rid : String)
    (hv : v.uri = UriVal.resolver rid)
    (hres : h.resolve rid = ResolveOutcome.raises) :
    (processSource h mt score L F p l k v).2 = none := by
  simp only [processSource]
  split_ifs with hg
  · rw [resolveAndFill_raises h k
      { v with match_confidence := some (srcConf h score L F p l k v) }
      rid hv hres]
  · rfl

/-- URI resolution depends on the host only through the resolver that the
descriptor references. -/
theorem resolveAndFill_congr (h h2 : Host) (k : String) (v : SourceDescriptor)
    (heq : ∀ rid2, v.uri = UriVal.resolver rid2 →
      h2.resolve rid2 = h.resolve rid2) :
    resolveAndFill h2 k v = resolveAndFill h k v := by
  rcases hu : v.uri with s | _ | rid2
  · simp [resolveAndFill, hu]
  · simp [resolveAndFill, hu]
  · simp only [resolveAndFill, hu]
    rw [heq rid2 hu]

/-- Scoring and resolution of one source depend on the host only through
`alias_match` and the resolver the descriptor references. -/
theorem processSource_congr (h h2 : Host) (mt : MediaType) (score : ℚ)
    (L F : List String) (p l k : String) (v : SourceDescriptor)
    (halias : h2.alias_match = h.alias_match)
    (heq : ∀ rid2, v.uri = UriVal.resolver rid2 →
      h2.resolve rid2 = h.resolve rid2) :
    processSource h2 mt score L F p l k v
      = processSource h mt score L F p l k v := by
  have hsc : srcConf h2 score L F p l k v = srcConf h score L F p l k v := by
    simp [srcConf, halias]
  simp only [processSource, hsc]
  split_ifs with hg
  · exact resolveAndFill_congr h h2 k _ heq
  · rfl

/-- C5: in `search_news`, a raising resolver is caught and removes exactly
its own candidate: the candidate yields no result and its stored `uri` is
untouched; a resolver returning an empty/absent URI likewise removes only
that candidate; and a run whose host raises for resolver `rid` returns
exactly the results of the unmodified host with the `rid`-backed sources
dropped, all other candidates unaffected. -/
theorem resolver_failure_isolated (h : Host) (c : Catalog) (phrase : String)
    (mt : MediaType) (rid : String) (score : ℚ) (L F : List String)
    (p l k : String) (v : SourceDescriptor) :
    (h.resolve rid = ResolveOutcome.raises → v.uri = UriVal.resolver rid →
      (processSource h mt score L F p l k v).2 = none
      ∧ (processSource h mt score L F p l k v).1.uri = v.uri)
    ∧ ((h.resolve rid = ResolveOutcome.returns none
        ∨ h.resolve rid = ResolveOutcome.returns (some "")) →
      v.uri = UriVal.resolver rid →
      (processSource h mt score L F p l k v).2 = none)
    ∧ ((search_news
          { h with resolve := fun x =>
              if x = rid then ResolveOutcome.raises else h.resolve x }
          c phrase mt).1
        = (c.map (fun lb => lb.2.filterMap (fun kv =>
            if kv.2.uri = UriVal.resolver rid then none
            else (processSource h mt (baseScore mt)
              (effectiveLangs h (match_lang h phrase))
              (default_feeds h (clean_phrase h phrase) (match_lang h phrase))
              (clean_phrase h phrase) lb.1 kv.1 kv.2).2))).flatten) := by
  refine ⟨?_, ?_, ?_⟩
  · intro hres hv
    constructor
    · exact processSource_raises h mt score L F p l k v rid hv hres
    · simp only [processSource]
      split_ifs with hg
      · rw [resolveAndFill_raises h k
          { v with match_confidence := some (srcConf h score L F p l k v) }
          rid hv hres]
      · rfl
  · intro hres hv
    simp only [processSource]
    split_ifs with hg
    · rcases hres with hres | hres
      · exact resolveAndFill_empty h k _ rid none hv hres rfl
      · exact resolveAndFill_empty h k _ rid (some "") hv hres rfl
    · rfl
  · simp only [search_news]
    refine congrArg List.flatten (List.map_congr_left ?_)
    intro lb _
    refine List.filterMap_congr ?_
    intro kv _
    by_cases hu : kv.2.uri = UriVal.resolver rid
    · rw [if_pos hu]
      exact processSource_raises _ mt _ _ _ _ lb.1 kv.1 kv.2 rid hu
        (by simp)
    · rw [if_neg hu]
      exact congrArg Prod.snd
        (processSource_congr h
          { h with resolve := fun x =>
              if x = rid then ResolveOutcome.raises else h.resolve x }
          mt (baseScore mt)
          (effectiveLangs h (match_lang h phrase))
          (default_feeds h (clean_phrase h phrase) (match_lang h phrase))
          (clean_phrase h phrase) lb.1 kv.1 kv.2 rfl
          (fun rid2 hv2 => by
            have hne : rid2 ≠ rid := fun hr => hu (hr ▸ hv2)
            simp [hne]))

/-- Witness for C5: forcing the `gpb` resolver to raise removes the
GPB-backed candidate. -/
theorem resolver_failure_isolated_witness :
    (processSource
        { hostB with resolve := fun x =>
            if x = "gpb" then ResolveOutcome.raises else hostB.resolve x }
        MediaType.NEWS 50 [] [] "" "en" "R" descR).2 = none
    ∧ (processSource
        { hostB with resolve := fun x =>
            if x = "gpb" then ResolveOutcome.raises else hostB.resolve x }
        MediaType.NEWS 50 [] [] "" "en" "R" descR).1.uri = descR.uri :=
  (resolver_failure_isolated
    { hostB with resolve := fun x =>
        if x = "gpb" then ResolveOutcome.raises else hostB.resolve x }
    catW "" MediaType.NEWS "gpb" 50 [] [] "" "en" "R" descR).1
    (by simp) (by decide)

/-- C6 counterexample: `clean_phrase` does not strip the vocabulary of
every known catalog language tag, and the stripped list has 13 entries,
not 12: "fr" is a catalog language whose vocabulary survives cleaning even
without any fr24/rt channel-name collision. -/
theorem clean_phrase_known_tags_cex :
    clean_phrase hostA "france" = "france"
    ∧ hostA.voc_match "france" "fr" = true
    ∧ hostA.voc_match (hostA.remove_voc "france" "news") "fr24" = false
    ∧ hostA.voc_match (hostA.remove_voc "france" "news") "rt" = false
    ∧ "fr" ∈ lang2news.map Prod.fst
    ∧ "fr" ∉ stripLangTags
    ∧ stripLangTags.length = 13 := by
  decide

/-- C6 (amended): `clean_phrase` removes the "news" vocabulary; when the
news-stripped phrase matches the "fr24" or "rt" channel-name vocabulary
all language stripping is skipped; otherwise it strips, in a fixed order,
the vocabularies of the 13 tags of `stripLangTags` — never those of "fr"
or "ru" — and it returns the trimmed remainder, which may be empty. -/
theorem clean_phrase_strips (h : Host) (phrase : String) :
    (h.voc_match (h.remove_voc phrase "news") "fr24" = true
        ∨ h.voc_match (h.remove_voc phrase "news") "rt" = true →
      clean_phrase h phrase = pyStrip (h.remove_voc phrase "news"))
    ∧ (h.voc_match (h.remove_voc phrase "news") "fr24" = false →
       h.voc_match (h.remove_voc phrase "news") "rt" = false →
      clean_phrase h phrase
        = pyStrip (stripAll h stripLangTags (h.remove_voc phrase "news")))
    ∧ stripLangTags.length = 13
    ∧ "fr" ∉ stripLangTags
    ∧ "ru" ∉ stripLangTags
    ∧ clean_phrase hostB "play the news" = "" := by
  refine ⟨?_, ?_, by decide, by decide, by decide, by decide⟩
  · intro hcol
    simp only [clean_phrase]
    rcases hcol with hc | hc <;> simp [hc]
  · intro h1 h2
    simp only [clean_phrase, stripAll, stripLangTags, List.foldl]
    simp [h1, h2]

/-- Witness for C6 (amended) at a concrete collision phrase: "russia
today" matches the rt vocabulary, so no language stripping happens. -/
theorem clean_phrase_strips_witness :
    clean_phrase hostA "russia today"
      = pyStrip (hostA.remove_voc "russia today" "news") :=
  (clean_phrase_strips hostA "russia today").1 (Or.inr (by decide))

/-- Taking a prefix satisfying a predicate is idempotent. -/
theorem takeWhile_idem {p : Char → Bool} (l : List Char) :
    (l.takeWhile p).takeWhile p = l.takeWhile p := by
  induction l with
  | nil => rfl
  | cons a t ih =>
    cases hp : p a <;> simp [List.takeWhile_cons, hp, ih]

/-- The base tag of a base tag is itself (a base tag contains no dash). -/
theorem baseTag_baseTag (x : String) : baseTag (baseTag x) = baseTag x := by
  simp only [baseTag]
  exact congrArg String.mk (takeWhile_idem x.data)

/-- Base tags of the regional catalog tags. -/
theorem baseTag_regional :
    baseTag "pt-pt" = "pt" ∧ baseTag "en-au" = "en" ∧ baseTag "en-us" = "en"
    ∧ baseTag "en-gb" = "en" ∧ baseTag "en-ca" = "en" := by
  decide

/-- C8: every language tag detected by `match_lang` has its base tag in
the detected list as well, so a source registered only under the base tag
stays reachable; in particular regional `xx-YY` tags contribute `xx`. -/
theorem base_tag_included (h : Host) (p x : String)
    (hx : x ∈ match_lang h p) : baseTag x ∈ match_lang h p := by
  simp only [match_lang, List.mem_append] at hx ⊢
  rcases hx with hx | hx
  · exact Or.inr (List.mem_map_of_mem baseTag hx)
  · rcases List.mem_map.mp hx with ⟨y, hy, rfl⟩
    exact Or.inr (by rw [baseTag_baseTag]; exact List.mem_map_of_mem baseTag hy)

/-- Witness for C8: the regional tag detected on a concrete phrase brings
its base tag along. -/
theorem base_tag_included_witness :
    baseTag "en-us" ∈ match_lang hostA "american news" :=
  base_tag_included hostA "american news" "en-us" (by decide)

@[simp] theorem baseTag_lit_ptpt : baseTag "pt-pt" = "pt" := by decide

@[simp] theorem baseTag_lit_enau : baseTag "en-au" = "en" := by decide

@[simp] theorem baseTag_lit_enus : baseTag "en-us" = "en" := by decide

@[simp] theorem baseTag_lit_engb : baseTag "en-gb" = "en" := by decide

@[simp] theorem baseTag_lit_enca : baseTag "en-ca" = "en" := by decide

@[simp] theorem baseTag_lit_en : baseTag "en" = "en" := by decide

@[simp] theorem baseTag_lit_es : baseTag "es" = "es" := by decide

@[simp] theorem baseTag_lit_ca : baseTag "ca" = "ca" := by decide

@[simp] theorem baseTag_lit_de : baseTag "de" = "de" := by decide

@[simp] theorem baseTag_lit_nl : baseTag "nl" = "nl" := by decide

@[simp] theorem baseTag_lit_fi : baseTag "fi" = "fi" := by decide

@[simp] theorem baseTag_lit_sv : baseTag "sv" = "sv" := by decide

@[simp] theorem baseTag_lit_it : baseTag "it" = "it" := by decide

@[simp] theorem baseTag_lit_fr : baseTag "fr" = "fr" := by decide

@[simp] theorem baseTag_lit_ru : baseTag "ru" = "ru" := by decide

/-- C7: `match_lang` detects "fr" exactly when the phrase matches the "fr"
vocabulary but not the "fr24" channel vocabulary, and "ru" exactly when it
matches "ru" but not "rt"; in particular "play france 24" does not detect
"fr" under the spec-modelled vocabulary fixture. -/
theorem fr_ru_collision_rule (h : Host) (p : String) :
    ("fr" ∈ match_lang h p
      ↔ h.voc_match p "fr" = true ∧ h.voc_match p "fr24" = false)
    ∧ ("ru" ∈ match_lang h p
      ↔ h.voc_match p "ru" = true ∧ h.voc_match p "rt" = false)
    ∧ "fr" ∉ match_lang hostA "play france 24" := by
  refine ⟨⟨?_, ?_⟩, ⟨?_, ?_⟩, by decide⟩
  · intro hx
    by_cases h1 : h.voc_match p "fr" = true
    · by_cases h2 : h.voc_match p "fr24" = true
      · exfalso
        simp [match_lang, match_lang_pre, mem_cond_singleton, h2,
          apply_ite (List.map baseTag)] at hx
      · exact ⟨h1, by simpa using h2⟩
    · exfalso
      have h1f : h.voc_match p "fr" = false := by simpa using h1
      simp [match_lang, match_lang_pre, mem_cond_singleton, h1f,
        apply_ite (List.map baseTag)] at hx
  · rintro ⟨h1, h2⟩
    simp [match_lang, match_lang_pre, mem_cond_singleton, h1, h2]
  · intro hx
    by_cases h1 : h.voc_match p "ru" = true
    · by_cases h2 : h.voc_match p "rt" = true
      · exfalso
        simp [match_lang, match_lang_pre, mem_cond_singleton, h2,
          apply_ite (List.map baseTag)] at hx
      · exact ⟨h1, by simpa using h2⟩
    · exfalso
      have h1f : h.voc_match p "ru" = false := by simpa using h1
      simp [match_lang, match_lang_pre, mem_cond_singleton, h1f,
        apply_ite (List.map baseTag)] at hx
  · rintro ⟨h1, h2⟩
    simp [match_lang, match_lang_pre, mem_cond_singleton, h1, h2]

/-- Witness for C7: a phrase matching the "fr" vocabulary without the
"fr24" collision is detected as a French request. -/
theorem fr_ru_collision_rule_witness :
    "fr" ∈ match_lang hostA "france" :=
  (fr_ru_collision_rule hostA "france").1.mpr ⟨by decide, by decide⟩

/-- The head of a non-empty list is a member. -/
theorem headI_mem_of_ne {α : Type} [Inhabited α] (l : List α) (h : l ≠ []) :
    l.headI ∈ l := by
  cases l with
  | nil => exact absurd rfl h
  | cons a t => exact List.mem_cons_self a t

/-- Looking up in a key-preserving mapped association list is mapping the
lookup result. -/
theorem lookup_map_snd {β γ : Type} (c : List (String × β))
    (g : String → β → γ) (a : String) :
    (c.map (fun lb => (lb.1, g lb.1 lb.2))).lookup a
      = (c.lookup a).map (g a) := by
  induction c with
  | nil => rfl
  | cons kv t ih =>
    obtain ⟨k0, b⟩ := kv
    simp only [List.map_cons]
    rw [List.lookup_cons, List.lookup_cons]
    cases hak : a == k0 with
    | true =>
      rw [show a = k0 from eq_of_beq hak]
      rfl
    | false => exact ih

/-- The catalog returned by `search_news` holds, at every key pair, the
processed (annotated, possibly URI-resolved) version of the descriptor
that was stored at that key pair on entry. -/
theorem catDescr_search_news (h : Host) (c : Catalog) (p : String)
    (mt : MediaType) (l k : String) :
    catDescr (search_news h c p mt).2 l k
      = (catDescr c l k).map (fun v =>
          (processSource h mt (baseScore mt)
            (effectiveLangs h (match_lang h p))
            (default_feeds h (clean_phrase h p) (match_lang h p))
            (clean_phrase h p) l k v).1) := by
  simp only [search_news, catDescr]
  rw [lookup_map_snd c (fun l0 bucket => bucket.map (fun kv =>
    (kv.1, (processSource h mt (baseScore mt)
      (effectiveLangs h (match_lang h p))
      (default_feeds h (clean_phrase h p) (match_lang h p))
      (clean_phrase h p) l0 kv.1 kv.2).1))) l]
  cases c.lookup l with
  | none => rfl
  | some bucket =>
    exact lookup_map_snd bucket (fun k0 v =>
      (processSource h mt (baseScore mt)
        (effectiveLangs h (match_lang h p))
        (default_feeds h (clean_phrase h p) (match_lang h p))
        (clean_phrase h p) l k0 v).1) k

/-- C9 counterexample: the annotations persist beyond the request. After
one NEWS search the shared catalog's NPR entry holds the resolved literal
stream URL, while at skill load it held the `npr` resolver callable — a
subsequent `search_news` call does not observe the load-time descriptor. -/
theorem catalog_mutation_cex :
    (catDescr (search_news hostB lang2news "play the news"
        MediaType.NEWS).2 "en-us" "NPR").map SourceDescriptor.uri
      = some (UriVal.literal "http://resolved.example/stream.mp3")
    ∧ (catDescr lang2news "en-us" "NPR").map SourceDescriptor.uri
      = some (UriVal.resolver "npr") := by
  constructor
  · rw [catDescr_search_news]
    rw [show catDescr lang2news "en-us" "NPR" = some nprDescriptor from rfl]
    simp only [Option.map_some']
    simp only [processSource]
    rw [if_pos (Or.inr trivial)]
    simp [resolveAndFill, nprDescriptor, hostB, finishCandidate, uriOfPy,
      uriTruthy]
  · rfl

/-- C9 (amended): `search_news` writes its `match_confidence` annotations
and resolved URIs into the shared catalog in place, and they persist
beyond the request: the catalog's language keys and source-name structure
never change, every stored descriptor afterwards carries a confidence
annotation, and the descriptor observed at any key afterwards is the
processed version of the one stored at skill load. -/
theorem catalog_annotations_persist (h : Host) (c : Catalog) (p : String)
    (mt : MediaType) :
    ((search_news h c p mt).2).map (fun lb => (lb.1, lb.2.map Prod.fst))
      = c.map (fun lb => (lb.1, lb.2.map Prod.fst))
    ∧ (∀ lb ∈ (search_news h c p mt).2, ∀ kv ∈ lb.2,
        kv.2.match_confidence.isSome = true)
    ∧ (∀ l k, catDescr (search_news h c p mt).2 l k
        = (catDescr c l k).map (fun v =>
            (processSource h mt (baseScore mt)
              (effectiveLangs h (match_lang h p))
              (default_feeds h (clean_phrase h p) (match_lang h p))
              (clean_phrase h p) l k v).1)) := by
  refine ⟨?_, ?_, fun l k => catDescr_search_news h c p mt l k⟩
  · simp only [search_news, List.map_map]
    refine List.map_congr_left ?_
    intro lb _
    obtain ⟨l0, bucket⟩ := lb
    refine congrArg (fun x => (l0, x)) ?_
    rw [List.map_map]
    exact List.map_congr_left (fun kv _ => rfl)
  · intro lb hlb kv hkv
    simp only [search_news] at hlb
    rcases List.mem_map.mp hlb with ⟨lb0, _, rfl⟩
    rcases List.mem_map.mp hkv with ⟨kv0, _, rfl⟩
    rw [processSource_fst_mc]
    rfl

/-- Witness for C9 (amended): after a concrete run the first stored
descriptor carries a confidence annotation. -/
theorem catalog_annotations_persist_witness :
    ((((search_news hostB catW "play news"
        MediaType.NEWS).2).headI.2.headI.2.match_confidence).isSome) = true := by
  have h1 : (search_news hostB catW "play news" MediaType.NEWS).2 ≠ [] := by
    simp [search_news, catW]
  have h2 : ((search_news hostB catW "play news"
      MediaType.NEWS).2).headI.2 ≠ [] := by
    simp [search_news, catW]
  exact (catalog_annotations_persist hostB catW "play news"
      MediaType.NEWS).2.1 _ (headI_mem_of_ne _ h1) _ (headI_mem_of_ne _ h2)

/-- A collected candidate has a truthy URI and all display fields set. -/
theorem finishCandidate_some (k : String) (v r : SourceDescriptor)
    (hr : (finishCandidate k v).2 = some r) :
    uriTruthy r.uri = true ∧ r.title.isSome = true
    ∧ r.bg_image.isSome = true ∧ r.skill_logo.isSome = true := by
  simp only [finishCandidate] at hr
  split_ifs at hr with ht
  cases hr
  exact ⟨ht, rfl, rfl, rfl⟩

/-- A candidate surviving URI resolution has a truthy URI and all display
fields set. -/
theorem resolveAndFill_some (h : Host) (k : String) (v r : SourceDescriptor)
    (hr : (resolveAndFill h k v).2 = some r) :
    uriTruthy r.uri = true ∧ r.title.isSome = true
    ∧ r.bg_image.isSome = true ∧ r.skill_logo.isSome = true := by
  rcases hu : v.uri with s | _ | rid
  · rw [show resolveAndFill h k v = finishCandidate k v by
      simp [resolveAndFill, hu]] at hr
    exact finishCandidate_some k v r hr
  · rw [show resolveAndFill h k v = finishCandidate k v by
      simp [resolveAndFill, hu]] at hr
    exact finishCandidate_some k v r hr
  · cases hres : h.resolve rid with
    | raises =>
      rw [resolveAndFill_raises h k v rid hu hres] at hr
      exact Option.noConfusion hr
    | returns rv =>
      rw [show resolveAndFill h k v
          = finishCandidate k { v with uri := uriOfPy rv } by
        simp [resolveAndFill, hu, hres]] at hr
      exact finishCandidate_some k _ r hr

/-- A candidate contributed to the results has a truthy URI and all
display fields set. -/
theorem processSource_some (h : Host) (mt : MediaType) (score : ℚ)
    (L F : List String) (p l k : String) (v r : SourceDescriptor)
    (hr : (processSource h mt score L F p l k v).2 = some r) :
    uriTruthy r.uri = true ∧ r.title.isSome = true
    ∧ r.bg_image.isSome = true ∧ r.skill_logo.isSome = true := by
  simp only [processSource] at hr
  split_ifs at hr with hg
  exact resolveAndFill_some h k _ r hr

/-- C10: every result of `search_news` carries a truthy URI and has its
`title`, `bg_image` and `skill_logo` fields set; a candidate whose URI is
a falsy literal or Python `None`, or whose resolver returns a falsy value,
is excluded even when it passes the inclusion filter. -/
theorem results_wellformed (h : Host) (c : Catalog) (p : String)
    (mt : MediaType) :
    (∀ r ∈ (search_news h c p mt).1,
      uriTruthy r.uri = true ∧ r.title.isSome = true
      ∧ r.bg_image.isSome = true ∧ r.skill_logo.isSome = true)
    ∧ (∀ (score : ℚ) (L F : List String) (p2 l k : String)
        (v : SourceDescriptor),
        v.uri = UriVal.literal "" ∨ v.uri = UriVal.pynone →
        (processSource h mt score L F p2 l k v).2 = none)
    ∧ (∀ (score : ℚ) (L F : List String) (p2 l k : String)
        (v : SourceDescriptor) (rid : String) (rv : Option String),
        v.uri = UriVal.resolver rid →
        h.resolve rid = ResolveOutcome.returns rv →
        uriTruthy (uriOfPy rv) = false →
        (processSource h mt score L F p2 l k v).2 = none) := by
  refine ⟨?_, ?_, ?_⟩
  · intro r hr
    simp only [search_news] at hr
    rcases List.mem_flatten.mp hr with ⟨bucketRes, hb, hrb⟩
    rcases List.mem_map.mp hb with ⟨lb, _, rfl⟩
    rcases List.mem_filterMap.mp hrb with ⟨kv, _, hsome⟩
    exact processSource_some h mt _ _ _ _ lb.1 kv.1 kv.2 r hsome
  · intro score L F p2 l k v hu
    simp only [processSource]
    split_ifs with hg
    · rcases hu with hu | hu <;>
        simp [resolveAndFill, hu, finishCandidate, uriTruthy]
    · rfl
  · intro score L F p2 l k v rid rv hu hres hfalsy
    simp only [processSource]
    split_ifs with hg
    · exact resolveAndFill_empty h k _ rid rv hu hres hfalsy
    · rfl

/-- Witness for C10: the first result of a concrete run has a truthy URI
and all display fields set. -/
theorem results_wellformed_witness :
    uriTruthy ((search_news hostB catW "play news"
        MediaType.NEWS).1.headI).uri = true
    ∧ (((search_news hostB catW "play news"
        MediaType.NEWS).1.headI).title).isSome = true := by
  have hne : (search_news hostB catW "play news" MediaType.NEWS).1 ≠ [] := by
    simp [search_news, catW, processSource, resolveAndFill, finishCandidate,
      descX, descR, hostB, uriTruthy, uriOfPy]
  have hall := (results_wellformed hostB catW "play news" MediaType.NEWS).1
    _ (headI_mem_of_ne _ hne)
  exact ⟨hall.1, hall.2.1⟩
